import Mathlib

/-!
Verification development for the `ptcg_ai` trading-card rules engine.

This file gives a shallow embedding of the engine's data model and of the
operations the checked claims talk about, translated from the Python sources:

* `src/ptcg_ai/models.py`     — card definitions/instances, zones, decks,
  player and game state;
* `src/ptcg_ai/game_tools.py` — the atomic operations layer (`GameTools`);
* `src/ptcg_ai/referee.py`    — the orchestrator's per-action handlers
  (`RefereeAgent`);
* `src/ptcg_ai/card_effects.py` — the plan interpreter (`EffectExecutor`);
* `agents/rule_analyst/analyzer.py` — the plan compiler's step assembly.

Python's in-place mutation is modelled by explicit state passing: an operation
takes a `GameState` and returns the updated `GameState`.  An operation that can
raise is modelled with `Except String` (the exception message) or, for referee
handlers whose exceptions are caught by `RefereeAgent.handle_request` and
surfaced as failed `OperationResult`s, with `GameState × Option String`, where
`some msg` is the failed result carrying `msg` and the returned state is the
state at the moment the exception was raised (mutations already performed by
the handler persist, exactly as they do on the Python side).

The engine is two-player throughout (`opponent_id = [p for p in players if
p != owner][0]`), so `GameState` carries exactly two named players, in the
insertion order of the Python dict (`pidA` first).  Python `dataclass`
equality (field-by-field) is modelled by structural equality on the
corresponding structures, and `list.remove(x)` by removal of the first
structurally-equal element.
-/

namespace PtcgAI

/-- Static card data (`models.py`, `CardDefinition`).  Fields not used by any
checked operation (`rules_text`, `subtypes`, `abilities`, `attacks`) are
omitted; no embedded operation reads them. -/
structure CardDefinition where
  set_code : String
  number : String
  name : String
  card_type : String
  hp : Option Int := none
  stage : Option String := none
deriving DecidableEq, Repr

/-- One physical card (`models.py`, `CardInstance`): unique id, owner, static
data and the mutable runtime fields. -/
structure CardInstance where
  uid : String
  owner_id : String
  definition : CardDefinition
  damage : Int := 0
  attached_energy : List String := []
  special_conditions : List String := []
deriving DecidableEq, Repr

/-- Property `CardInstance.hp`: the HP value comes from the definition. -/
def CardInstance.hp (c : CardInstance) : Option Int :=
  c.definition.hp

/-- Property `CardInstance.is_ko`: knocked out when `damage >= hp`; a card
with no HP (non-Pokémon) is never knocked out. -/
def CardInstance.isKo (c : CardInstance) : Bool :=
  match c.hp with
  | none => false
  | some h => decide (h ≤ c.damage)

/-- One player's state (`models.py`, `PlayerState`): the zone dictionary is
a fixed eight-zone map, modelled as eight list fields; `prizes_remaining`
defaults to 6; `usage_trackers` is the nested dict
`{entity_id: {"scope:counter_type": count}}`, flattened to an association
list keyed by the pair `(entity_id, "scope:counter_type")` (lookup and
increment behave identically to the nested dict). -/
structure PlayerState where
  player_id : String
  deck : List CardInstance := []
  hand : List CardInstance := []
  active : List CardInstance := []
  bench : List CardInstance := []
  discard : List CardInstance := []
  lost_zone : List CardInstance := []
  prize : List CardInstance := []
  stadium : List CardInstance := []
  prizes_remaining : Int := 6
  usage_trackers : List ((String × String) × Int) := []
deriving DecidableEq, Repr

/-- Fresh `PlayerState` as built by `RefereeAgent.create`
(`PlayerState(player_id=player_id)`: every zone empty, six prizes). -/
def mkPlayerState (pid : String) : PlayerState :=
  { player_id := pid }

/-- Dictionary lookup of a usage counter
(`PlayerState.get_usage_count`): missing entries count as 0.  The `key`
argument is the Python string `scope + ":" + counter_type`. -/
def getUsage (t : List ((String × String) × Int)) (entity key : String) : Int :=
  match t.lookup (entity, key) with
  | some n => n
  | none => 0

/-- Dictionary increment of a usage counter (`PlayerState.track_usage`):
bump an existing entry, or create it at 1. -/
def incUsage : List ((String × String) × Int) → String × String → List ((String × String) × Int)
  | [], k => [(k, 1)]
  | (k', v) :: rest, k =>
      if k' = k then (k', v + 1) :: rest else (k', v) :: incUsage rest k

/-- Match state (`models.py`, `GameState`), specialised to the two players the
engine actually handles; `pidA` is the first key of the Python player dict. -/
structure GameState where
  match_id : String
  pidA : String
  pidB : String
  psA : PlayerState
  psB : PlayerState
  turn_player : Option String := none
  turn_number : Int := 0
  phase : String := "init"
deriving DecidableEq, Repr

/-- Dictionary read `self.state.players[player_id]` for a two-entry dict. -/
def GameState.player (s : GameState) (pid : String) : PlayerState :=
  if pid = s.pidA then s.psA else s.psB

/-- Write-back of a player entry (Python mutates the `PlayerState` in place). -/
def GameState.setPlayer (s : GameState) (pid : String) (ps : PlayerState) : GameState :=
  if pid = s.pidA then { s with psA := ps } else { s with psB := ps }

/-- The Python idiom `[p for p in self.state.players.keys() if p != x][0]`
on the two-player dict. -/
def GameState.opponentOf (s : GameState) (pid : String) : String :=
  if pid = s.pidA then s.pidB else s.pidA

/-- Removal of the first structurally-equal element, Python's
`list.remove(x)` on a list of dataclass instances (no-op when absent,
matching the guarded uses in the sources). -/
def removeFirst : List CardInstance → CardInstance → List CardInstance
  | [], _ => []
  | x :: rest, c => if x = c then rest else x :: removeFirst rest c

/-- Python's `list.remove(x)` on a list of strings (no-op when absent). -/
def removeFirstStr : List String → String → List String
  | [], _ => []
  | x :: rest, u => if x = u then rest else x :: removeFirstStr rest u

section DeckValidation

/-- `Deck.validate` (`models.py`, lines 82-92): exactly 60 cards, and the set
of uids (number of distinct uids, `List.dedup`) must also have size 60.  The
function only reads the deck; `Except.ok ()` is a validation that returned
without raising. -/
def deckValidate (player_id : String) (cards : List CardInstance) : Except String Unit :=
  if cards.length ≠ 60 then
    Except.error ("Deck for " ++ player_id ++ " must contain exactly 60 cards, received "
      ++ toString cards.length)
  else if (cards.map CardInstance.uid).dedup.length ≠ 60 then
    Except.error "Every card in the deck must have a unique uid"
  else
    Except.ok ()

end DeckValidation

section Draw

/-- `GameTools.draw` (`game_tools.py`, lines 92-103): slice the top `count`
cards off the deck (`deck.cards[:count]`), delete them from the deck and
append them to the hand.  Python list slicing is total, so the operation
never raises; the embedding is a total function. -/
def draw (s : GameState) (pid : String) (count : Nat) : GameState × List CardInstance :=
  let ps := s.player pid
  let drawn := ps.deck.take count
  (s.setPlayer pid { ps with deck := ps.deck.drop count, hand := ps.hand ++ drawn }, drawn)

end Draw

section PrizeOperations

/-- `GameTools.take_prize` (`game_tools.py`, lines 122-134): move the first
`count` prize cards to the hand and subtract the number actually taken from
`prizes_remaining`. -/
def takePrize (s : GameState) (pid : String) (count : Nat) : GameState × List CardInstance :=
  let ps := s.player pid
  let taken := ps.prize.take count
  (s.setPlayer pid
    { ps with
      prize := ps.prize.drop count
      hand := ps.hand ++ taken
      prizes_remaining := ps.prizes_remaining - taken.length }, taken)

/-- `GameTools.modify_prize_delta` (`game_tools.py`, lines 554-579): clamp
`old + delta` at zero and store it; `delta` may have either sign.  Returns
the new count. -/
def modifyPrizeDelta (s : GameState) (pid : String) (delta : Int) : GameState × Int :=
  let old := (s.player pid).prizes_remaining
  let newCount := max 0 (old + delta)
  (s.setPlayer pid { s.player pid with prizes_remaining := newCount }, newCount)

end PrizeOperations

section PokemonSearch

/-- The search idiom shared by `update_damage`, `check_ko`, `attach_energy`
(target) and the condition setters: iterate the player dict in insertion
order, scan that player's active spot, then their bench, and stop at the
first card whose `uid` matches.  Returns the owning player's id and the
card found. -/
def findPokemonWithOwner (s : GameState) (uid : String) : Option (String × CardInstance) :=
  match s.psA.active.find? (fun c => c.uid = uid) with
  | some c => some (s.pidA, c)
  | none =>
    match s.psA.bench.find? (fun c => c.uid = uid) with
    | some c => some (s.pidA, c)
    | none =>
      match s.psB.active.find? (fun c => c.uid = uid) with
      | some c => some (s.pidB, c)
      | none =>
        match s.psB.bench.find? (fun c => c.uid = uid) with
        | some c => some (s.pidB, c)
        | none => none

/-- In-place mutation of the first card matching `uid` in a list (the Python
code mutates the object returned by the search, which is the first match). -/
def updateCardInList (cards : List CardInstance) (uid : String)
    (f : CardInstance → CardInstance) : List CardInstance :=
  match cards with
  | [] => []
  | c :: rest => if c.uid = uid then f c :: rest else c :: updateCardInList rest uid f

/-- In-place mutation of the card that `findPokemonWithOwner` finds: the
update lands on the first `uid` match in the same search order
(`psA.active`, `psA.bench`, `psB.active`, `psB.bench`). -/
def updateFoundPokemon (s : GameState) (uid : String)
    (f : CardInstance → CardInstance) : GameState :=
  if s.psA.active.any (fun c => c.uid = uid) then
    { s with psA := { s.psA with active := updateCardInList s.psA.active uid f } }
  else if s.psA.bench.any (fun c => c.uid = uid) then
    { s with psA := { s.psA with bench := updateCardInList s.psA.bench uid f } }
  else if s.psB.active.any (fun c => c.uid = uid) then
    { s with psB := { s.psB with active := updateCardInList s.psB.active uid f } }
  else if s.psB.bench.any (fun c => c.uid = uid) then
    { s with psB := { s.psB with bench := updateCardInList s.psB.bench uid f } }
  else s

end PokemonSearch

section DamageAndKnockout

/-- `GameTools.update_damage` (`game_tools.py`, lines 297-334): find the
Pokémon in active or bench (both players, insertion order) and set its
damage to `max 0 (damage + delta)`; raise if the uid is nowhere in play. -/
def updateDamage (s : GameState) (uid : String) (delta : Int) : Except String GameState :=
  match findPokemonWithOwner s uid with
  | none => Except.error ("Pokémon " ++ uid ++ " not found in active or bench")
  | some _ =>
    Except.ok (updateFoundPokemon s uid
      (fun c => { c with damage := max 0 (c.damage + delta) }))

/-- `GameTools.check_ko` (`game_tools.py`, lines 336-391): find the Pokémon
(same search as `update_damage`, also remembering its owner); if it is not
knocked out return `false` and leave the state alone.  If it is knocked out:
the opponent takes one prize — but only when their `prizes_remaining` is
positive — and then the card is moved from the owner's active spot to the
owner's discard pile, but only if it sits in the active zone (`if pokemon in
active.cards`); a knocked-out bench Pokémon stays on the bench.  The
move-to-discard tail (lines 371-377) is `koMove` below; `checkKo` is the
whole operation. -/
def koMove (s : GameState) (ownerId : String) (pokemon : CardInstance) : GameState :=
  let owner := s.player ownerId
  if pokemon ∈ owner.active then
    s.setPlayer ownerId
      { owner with
        active := removeFirst owner.active pokemon
        discard := owner.discard ++ [pokemon] }
  else s

/-- Body of `GameTools.check_ko`, see the comment on `koMove`. -/
def checkKo (s : GameState) (uid : String) : Except String (GameState × Bool) :=
  match findPokemonWithOwner s uid with
  | none => Except.error ("Pokémon " ++ uid ++ " not found")
  | some (ownerId, pokemon) =>
    if pokemon.isKo then
      let oppId := s.opponentOf ownerId
      let s1 := if (s.player oppId).prizes_remaining > 0 then (takePrize s oppId 1).1 else s
      Except.ok (koMove s1 ownerId pokemon, true)
    else
      Except.ok (s, false)

end DamageAndKnockout

section Evolution

/-- `GameTools.evolve_pokemon` (`game_tools.py`, lines 230-292): the evolution
card must be in the hand and the base in active or bench (active searched
first).  Damage, attached-energy list and special conditions are copied from
the base onto the evolution card; the base is removed from its zone and the
(mutated) evolution card appended there; the evolution card is removed from
the hand.  Nothing in the function touches the discard pile. -/
def evolvePokemon (s : GameState) (player_id base_card_id evolution_card_id : String) :
    Except String GameState :=
  let ps := s.player player_id
  match ps.hand.find? (fun c => c.uid = evolution_card_id) with
  | none => Except.error ("Evolution card " ++ evolution_card_id ++ " not found in hand")
  | some evo =>
    match ps.active.find? (fun c => c.uid = base_card_id) with
    | some base =>
      let evo2 := { evo with
        damage := base.damage
        attached_energy := base.attached_energy
        special_conditions := base.special_conditions }
      let hand2 := updateCardInList ps.hand evo.uid (fun _ => evo2)
      Except.ok (s.setPlayer player_id
        { ps with
          hand := removeFirst hand2 evo2
          active := removeFirst ps.active base ++ [evo2] })
    | none =>
      match ps.bench.find? (fun c => c.uid = base_card_id) with
      | none => Except.error ("Base card " ++ base_card_id ++ " not found in active or bench")
      | some base =>
        let evo2 := { evo with
          damage := base.damage
          attached_energy := base.attached_energy
          special_conditions := base.special_conditions }
        let hand2 := updateCardInList ps.hand evo.uid (fun _ => evo2)
        Except.ok (s.setPlayer player_id
          { ps with
            hand := removeFirst hand2 evo2
            bench := removeFirst ps.bench base ++ [evo2] })

end Evolution

section EnergyAttachment

/-- The hand search at the head of `GameTools.attach_energy`: the energy
card is looked for in either player's hand, in dict insertion order,
together with its owner. -/
def findEnergyInHands (s : GameState) (energy_card_id : String) :
    Option (String × CardInstance) :=
  match s.psA.hand.find? (fun c => c.uid = energy_card_id) with
  | some c => some (s.pidA, c)
  | none =>
    match s.psB.hand.find? (fun c => c.uid = energy_card_id) with
    | some c => some (s.pidB, c)
    | none => none

/-- `GameTools.attach_energy` (`game_tools.py`, lines 396-452): find the
energy card in either player's hand, require card type `"Energy"`, find the
target Pokémon in play, then remove the energy card from its owner's hand
and append the energy card's uid to the target's `attached_energy`. -/
def attachEnergy (s : GameState) (energy_card_id target_pokemon_id : String) :
    Except String GameState :=
  match findEnergyInHands s energy_card_id with
  | none => Except.error ("Energy card " ++ energy_card_id ++ " not found in hand")
  | some oe =>
    let owner_id := oe.1
    let ecard := oe.2
    if ecard.definition.card_type ≠ "Energy" then
      Except.error ("Card " ++ energy_card_id ++ " is not an energy card")
    else
      match findPokemonWithOwner s target_pokemon_id with
      | none => Except.error ("Target Pokémon " ++ target_pokemon_id ++ " not found")
      | some _ =>
        let s1 := s.setPlayer owner_id
          { s.player owner_id with hand := removeFirst (s.player owner_id).hand ecard }
        Except.ok (updateFoundPokemon s1 target_pokemon_id
          (fun c => { c with attached_energy := c.attached_energy ++ [energy_card_id] }))

/-- `GameTools.track_usage` / `PlayerState.track_usage`: bump the player's
usage counter; `key` is the Python string `scope + ":" + counter_type`. -/
def trackUsage (s : GameState) (pid entity key : String) : GameState :=
  let ps := s.player pid
  s.setPlayer pid { ps with usage_trackers := incUsage ps.usage_trackers (entity, key) }

end EnergyAttachment

section RefereeHandlers

/-- `RefereeAgent._ensure_turn` (`referee.py`, lines 774-780): when no turn
player is set yet, `_determine_starting_player` mutates the state (first
player of the dict starts, turn 1, phase `"draw"`); then a request by anyone
other than the turn player raises.  The raise is modelled as `some msg`. -/
def ensureTurn (s : GameState) (actor : String) : GameState × Option String :=
  let s0 :=
    match s.turn_player with
    | none => { s with turn_player := some s.pidA, turn_number := 1, phase := "draw" }
    | some _ => s
  if s0.turn_player ≠ some actor then
    (s0, some ("It is not " ++ actor ++ "'s turn"))
  else
    (s0, none)

/-- `RefereeAgent._handle_attach_energy` (`referee.py`, lines 743-769),
composed with the exception handling of `handle_request` (lines 88-100):
turn check, parameter presence checks (Python falsiness of a missing id is
modelled by the empty string), the once-per-turn usage-limit check, then the
atomic `attach_energy` followed by `track_usage`.  `some msg` is the failed
`OperationResult` built from the raised exception; the state component is
the state at that moment. -/
def handleAttachEnergy (s : GameState) (actor energy_card_id pokemon_id : String) :
    GameState × Option String :=
  match ensureTurn s actor with
  | (s0, some msg) => (s0, some msg)
  | (s0, none) =>
    if energy_card_id = "" then
      (s0, some "attach_energy requires 'energy_card_id' parameter. Provide the UID of the energy card from your hand.")
    else if pokemon_id = "" then
      (s0, some "attach_energy requires 'pokemon_id' parameter. Provide the UID of the target Pokémon in active or bench.")
    else if getUsage (s0.player actor).usage_trackers "energy_attachment" "turn:attach_energy" > 0 then
      (s0, some "You can only attach one Energy card per turn")
    else
      match attachEnergy s0 energy_card_id pokemon_id with
      | Except.error msg => (s0, some msg)
      | Except.ok s1 => (trackUsage s1 actor "energy_attachment" "turn:attach_energy", none)

/-- `RefereeAgent._get_retreat_cost` (`referee.py`, lines 932-956):
`CardDefinition` has no retreat-cost field, so the function always falls
through to the default of 1. -/
def getRetreatCost (_pokemon : CardInstance) : Nat :=
  1

/-- Paying a retreat cost: for each uid in the paid prefix, remove its first
occurrence from the attached-energy list (`referee.py`, lines 635-640). -/
def removeUids (l : List String) (us : List String) : List String :=
  us.foldl removeFirstStr l

/-- `GameTools.swap_active_with_bench` (`game_tools.py`, lines 171-210):
resolve the target player (`opponent = true` swaps the other player's
active), require the bench card to exist (raising otherwise), move the
current active (if any) to the end of the bench, then move the chosen bench
card to the active spot. -/
def swapActiveWithBench (s : GameState) (player_id bench_card_id : String) (opponent : Bool) :
    Except String GameState :=
  let target := if opponent then s.opponentOf player_id else player_id
  let ps := s.player target
  match ps.bench.find? (fun c => c.uid = bench_card_id) with
  | none => Except.error ("Bench card " ++ bench_card_id ++ " not found")
  | some bcard =>
    let ps1 :=
      match ps.active with
      | [] => ps
      | a :: _ => { ps with active := removeFirst ps.active a, bench := ps.bench ++ [a] }
    Except.ok (s.setPlayer target
      { ps1 with
        bench := removeFirst ps1.bench bcard
        active := ps1.active ++ [bcard] })

/-- `RefereeAgent._handle_switch_pokemon` (`referee.py`, lines 603-652),
composed with the exception handling of `handle_request`: after the turn,
parameter, retreat-limit, active-present, special-condition and
energy-sufficiency checks, the handler pays the retreat cost by stripping
the paid energy uids off the active Pokémon (an in-place mutation), logs an
empty discard (`tools.discard` with an empty card list moves nothing), and
records the retreat usage — all before `swap_active_with_bench` checks that
the bench card exists.  A failure raised by the swap therefore surfaces with
the cost already paid. -/
def handleSwitchPokemon (s : GameState) (actor bench_card_id : String) (opponent : Bool) :
    GameState × Option String :=
  match ensureTurn s actor with
  | (s0, some msg) => (s0, some msg)
  | (s0, none) =>
    if bench_card_id = "" then
      (s0, some "switch_pokemon requires 'bench_card_id' parameter. Provide the UID of the Pokémon in bench to switch with.")
    else if getUsage (s0.player actor).usage_trackers "retreat" "turn:switch_pokemon" > 0 then
      (s0, some "You can only retreat once per turn")
    else
      match (s0.player actor).active with
      | [] => (s0, some "No active Pokémon to retreat")
      | ap :: rest =>
        if "Asleep" ∈ ap.special_conditions ∨ "Paralyzed" ∈ ap.special_conditions then
          (s0, some "Pokémon that are Asleep or Paralyzed cannot retreat")
        else
          let cost := getRetreatCost ap
          if ap.attached_energy.length < cost then
            (s0, some ("Not enough energy attached. Retreat cost is " ++ toString cost
              ++ ", but only " ++ toString ap.attached_energy.length ++ " energy attached"))
          else
            let s1 :=
              if cost > 0 then
                let toDiscard := ap.attached_energy.take cost
                let ap2 := { ap with attached_energy := removeUids ap.attached_energy toDiscard }
                s0.setPlayer actor { s0.player actor with active := ap2 :: rest }
              else s0
            let s2 := trackUsage s1 actor "retreat" "turn:switch_pokemon"
            match swapActiveWithBench s2 actor bench_card_id opponent with
            | Except.error msg => (s2, some msg)
            | Except.ok s3 => (s3, none)

end RefereeHandlers

section PlanInterpreter

/-- Effect-execution context (`card_effects.py`, `EffectContext`), restricted
to the fields the validation rules read. -/
structure EffectContext where
  player_id : String
  card_instance : CardInstance
deriving DecidableEq, Repr

/-- One validation rule of a compiled plan (`analyzer.py` emits dicts with a
`type`, optional `params.ability_name`, and an optional `error_message`). -/
structure ValidationRule where
  vtype : String
  ability_name : String := ""
  error_message : Option String := none
deriving DecidableEq, Repr

/-- `EffectExecutor._execute_validation` (`card_effects.py`, lines 100-167):
`in_active` requires the context card to be in the player's active zone;
`bench_full` fails when the bench already holds five (`check_bench_full`,
`length >= 5`); `ability_used` / `ability_used_game` fail when the per-turn
resp. per-game ability counter of the context card is positive.  Every other
rule type (checked upstream by the referee) and unknown types fall through
as valid.  `some msg` is an invalid result with message `msg` (the rule's
`error_message`, or the hard-coded default). -/
def checkValidation (s : GameState) (ctx : EffectContext) (v : ValidationRule) : Option String :=
  if v.vtype = "in_active" then
    if ctx.card_instance ∈ (s.player ctx.player_id).active then none
    else some (v.error_message.getD "Card must be in active spot")
  else if v.vtype = "bench_full" then
    if (s.player ctx.player_id).bench.length ≥ 5 then
      some (v.error_message.getD "Bench is full")
    else none
  else if v.vtype = "ability_used" then
    if getUsage (s.player ctx.player_id).usage_trackers ctx.card_instance.uid "turn:ability" > 0 then
      some (v.error_message.getD ("Ability " ++ v.ability_name ++ " already used this turn"))
    else none
  else if v.vtype = "ability_used_game" then
    if getUsage (s.player ctx.player_id).usage_trackers ctx.card_instance.uid "game:ability" > 0 then
      some (v.error_message.getD ("Ability " ++ v.ability_name ++ " already used this game"))
    else none
  else
    none

/-- The validation loop at the head of `EffectExecutor.execute_with_plan`
(`card_effects.py`, lines 46-52): rules are checked in list order and the
first invalid one short-circuits with its message. -/
def runValidations (s : GameState) (ctx : EffectContext) :
    List ValidationRule → Option String
  | [] => none
  | v :: rest =>
    match checkValidation s ctx v with
    | some msg => some msg
    | none => runValidations s ctx rest

/-- A state-mutating execution step of a plan, at the granularity the claims
need: the `draw_cards` branch of `EffectExecutor._execute_step` delegates to
`GameTools.draw` with the step's count.  (The other step kinds, and the
dependency / skip / suspension machinery, sit strictly after the validation
gate in `execute_with_plan` and are not reached when a rule fails.) -/
inductive PlanAction where
  | drawCards (count : Nat)
deriving DecidableEq, Repr

/-- `EffectExecutor._execute_step`, `draw` branch (`card_effects.py`,
lines 304-308). -/
def execStep (s : GameState) (pid : String) : PlanAction → GameState
  | PlanAction.drawCards n => (draw s pid n).1

/-- The part of a compiled plan the interpreter claims read. -/
structure ExecPlanI where
  validation_rules : List ValidationRule
  execution_steps : List PlanAction
deriving DecidableEq, Repr

/-- Result value of `execute_with_plan` restricted to success flag and
message. -/
structure ExecResult where
  success : Bool
  message : String
deriving DecidableEq, Repr

/-- `EffectExecutor.execute_with_plan` (`card_effects.py`, lines 30-98): run
every validation rule first; any failure returns a failed result with that
rule's message before the step loop starts, so no step runs and the state is
untouched.  Otherwise the steps execute in list order. -/
def executeWithPlan (s : GameState) (ctx : EffectContext) (plan : ExecPlanI) :
    GameState × ExecResult :=
  match runValidations s ctx plan.validation_rules with
  | some msg => (s, { success := false, message := msg })
  | none =>
    (plan.execution_steps.foldl (fun st a => execStep st ctx.player_id a) s,
     { success := true, message := "Effect executed" })

end PlanInterpreter

section PlanCompiler

/-- One execution step as assembled by the compiler
(`agents/rule_analyst/analyzer.py`), at the granularity of the ordering
claim: its `step_type`, its `action` id, and the `before_damage` marker. -/
structure PlanStep where
  step_type : String
  action : String
  before_damage : Bool := false
deriving DecidableEq, Repr

/-- The damage-resolution step appended by `_analyze_attack`
(`analyzer.py`, lines 383-404) when the attack has printed damage. -/
def damageStep : PlanStep :=
  { step_type := "damage", action := "calculate_and_apply_damage" }

/-- The step built for a parsed action carrying the `before_damage` flag
(`_analyze_effect_text`, `analyzer.py`, lines 1091-1104): step type is the
action's type, the action id is prefixed `before_damage_`, and the step is
marked `before_damage = True`.  `atype` is the parsed action's type, for an
action that reaches this branch (one whose type matches none of the earlier
typed branches, e.g. the `switch` produced for "Before doing damage, switch
…"). -/
def beforeDamageStepOf (atype : String) : PlanStep :=
  { step_type := atype, action := "before_damage_" ++ atype, before_damage := true }

/-- The damage-step test of `_analyze_effect_text` (`analyzer.py`,
lines 1380-1383). -/
def isDamageStep (st : PlanStep) : Bool :=
  st.step_type = "damage" || st.action = "calculate_and_apply_damage"

/-- The final assembly of `_analyze_effect_text` (`analyzer.py`,
lines 1378-1398): `existing` is `plan.execution_steps` as it stands when the
locally built `steps` list is merged.  The code collects the indices of
damage steps already in the plan, splits the new steps into `before_damage`
and regular ones, and then — in both branches — `extend`s the plan, i.e.
appends the new steps at the tail, after the damage step. -/
def effectTextAssemble (existing steps : List PlanStep) : List PlanStep :=
  let damage_step_indices := (existing.enum.filter (fun p => isDamageStep p.2)).map Prod.fst
  let before_damage_steps := steps.filter (fun st => st.before_damage)
  let regular_steps := steps.filter (fun st => !st.before_damage)
  if !before_damage_steps.isEmpty && !damage_step_indices.isEmpty then
    existing ++ before_damage_steps ++ regular_steps
  else
    existing ++ steps

/-- `_analyze_attack` followed by `_analyze_effect_text` (`analyzer.py`,
lines 382-407): for an attack with printed damage the damage-resolution step
is appended to the (fresh) plan first, and only then are the steps compiled
from the attack's effect text merged in by `effectTextAssemble`.
`text_steps` is the list the effect-text loop builds from the parsed action
sequence. -/
def analyzeAttackSteps (has_damage : Bool) (text_steps : List PlanStep) : List PlanStep :=
  effectTextAssemble (if has_damage then [damageStep] else []) text_steps

end PlanCompiler

section Fixtures

/-- A Basic Pokémon definition used by the concrete scenarios. -/
def defPikachu : CardDefinition :=
  { set_code := "SVI", number := "025", name := "Pikachu", card_type := "Pokémon"
    hp := some 60, stage := some "Basic" }

/-- A Stage 1 evolution definition used by the concrete scenarios. -/
def defRaichu : CardDefinition :=
  { set_code := "SVI", number := "026", name := "Raichu", card_type := "Pokémon"
    hp := some 120, stage := some "Stage 1" }

/-- A basic Energy definition used by the concrete scenarios. -/
def defEnergy : CardDefinition :=
  { set_code := "SVE", number := "004", name := "Basic Lightning Energy", card_type := "Energy" }

/-- Evolution scenario: a damaged, energised, poisoned base Pokémon in the
active spot and its evolution in hand. -/
def baseB1 : CardInstance :=
  { uid := "b1", owner_id := "A", definition := defPikachu
    damage := 20, attached_energy := ["e1", "e2"], special_conditions := ["Poisoned"] }

/-- The evolution card sitting in hand. -/
def evoV1 : CardInstance :=
  { uid := "v1", owner_id := "A", definition := defRaichu }

/-- State for the evolution scenario. -/
def sEvolve : GameState :=
  { match_id := "m", pidA := "A", pidB := "B"
    psA := { mkPlayerState "A" with active := [baseB1], hand := [evoV1] }
    psB := mkPlayerState "B" }

/-- The evolution card after the transfer of damage, energy and conditions. -/
def evoV1After : CardInstance :=
  { evoV1 with
    damage := baseB1.damage
    attached_energy := baseB1.attached_energy
    special_conditions := baseB1.special_conditions }

/-- Switch scenario: player A's active Pokémon carries one energy; the bench
is empty, so any bench uid is unknown. -/
def sSwitch : GameState :=
  { match_id := "m", pidA := "A", pidB := "B"
    psA := { mkPlayerState "A" with
      active := [{ uid := "p1", owner_id := "A", definition := defPikachu
                   attached_energy := ["e1"] }] }
    psB := mkPlayerState "B"
    turn_player := some "A", turn_number := 3, phase := "main" }

/-- Attach-energy scenario: two energy cards in hand, one Pokémon in play. -/
def sAttach : GameState :=
  { match_id := "m", pidA := "A", pidB := "B"
    psA := { mkPlayerState "A" with
      hand := [{ uid := "e1", owner_id := "A", definition := defEnergy },
               { uid := "e2", owner_id := "A", definition := defEnergy }]
      active := [{ uid := "p1", owner_id := "A", definition := defPikachu }] }
    psB := mkPlayerState "B"
    turn_player := some "A", turn_number := 3, phase := "main" }

/-- The state after the first (successful) energy attachment. -/
def sAttach1 : GameState :=
  (handleAttachEnergy sAttach "A" "e1" "p1").1

/-- Knockout scenario (active): player A's active Pikachu at 30 damage,
player B holding a full prize zone of one modelled card. -/
def sKo : GameState :=
  { match_id := "m", pidA := "A", pidB := "B"
    psA := { mkPlayerState "A" with
      active := [{ uid := "p1", owner_id := "A", definition := defPikachu, damage := 30 }] }
    psB := { mkPlayerState "B" with
      prize := [{ uid := "z1", owner_id := "B", definition := defEnergy }] }
    turn_player := some "B", turn_number := 4, phase := "attack" }

/-- The knockout-scenario state after `update_damage` pushes the active
Pikachu to 60 damage. -/
def sKo1 : GameState :=
  match updateDamage sKo "p1" 30 with
  | Except.ok s => s
  | Except.error _ => sKo

/-- The knocked-out Pikachu as it stands after the damage update (60 damage
against 60 HP), used by both knockout scenarios. -/
def cKo : CardInstance :=
  { uid := "p1", owner_id := "A", definition := defPikachu, damage := 60 }

/-- Knockout scenario (bench): the knocked-out Pikachu sits on A's bench,
with a different Pokémon in A's active spot. -/
def sKoBench : GameState :=
  { match_id := "m", pidA := "A", pidB := "B"
    psA := { mkPlayerState "A" with
      active := [{ uid := "p2", owner_id := "A", definition := defRaichu }]
      bench := [{ uid := "p1", owner_id := "A", definition := defPikachu, damage := 60 }] }
    psB := { mkPlayerState "B" with
      prize := [{ uid := "z1", owner_id := "B", definition := defEnergy }] }
    turn_player := some "B", turn_number := 4, phase := "attack" }

/-- Prize scenario: fresh two-player state (both at the default 6 prizes). -/
def sPrize : GameState :=
  { match_id := "m", pidA := "A", pidB := "B"
    psA := mkPlayerState "A", psB := mkPlayerState "B" }

/-- Interpreter scenario: a card that is not in the active spot, so an
`in_active` validation rule fails. -/
def ctxPlan : EffectContext :=
  { player_id := "A", card_instance := { uid := "p9", owner_id := "A", definition := defPikachu } }

/-- Interpreter scenario: an `in_active` rule followed by a state-mutating
draw step. -/
def planW : ExecPlanI :=
  { validation_rules := [{ vtype := "in_active", error_message := some "Card must be in the Active Spot to attack" }]
    execution_steps := [PlanAction.drawCards 2] }

/-- Interpreter scenario state: the context card is in the hand, not active,
and the deck is non-empty (so the draw step would mutate state if it ran). -/
def sPlan : GameState :=
  { match_id := "m", pidA := "A", pidB := "B"
    psA := { mkPlayerState "A" with
      hand := [ctxPlan.card_instance]
      deck := [{ uid := "d1", owner_id := "A", definition := defEnergy },
               { uid := "d2", owner_id := "A", definition := defEnergy }] }
    psB := mkPlayerState "B"
    turn_player := some "A", turn_number := 2, phase := "main" }

/-- Decidable equality for `Except` results, so concrete runs of the fallible
operations can be checked by `decide`. -/
instance instDecidableEqExcept {ε α : Type} [DecidableEq ε] [DecidableEq α] :
    DecidableEq (Except ε α) := fun x y =>
  match x, y with
  | Except.ok a, Except.ok b =>
      if h : a = b then Decidable.isTrue (by rw [h])
      else Decidable.isFalse (fun hc => by cases hc; exact h rfl)
  | Except.error a, Except.error b =>
      if h : a = b then Decidable.isTrue (by rw [h])
      else Decidable.isFalse (fun hc => by cases hc; exact h rfl)
  | Except.ok _, Except.error _ => Decidable.isFalse (fun hc => by cases hc)
  | Except.error _, Except.ok _ => Decidable.isFalse (fun hc => by cases hc)

/-- The state `evolve_pokemon` actually produces on the evolution scenario
(asserted and inspected by the corresponding theorem). -/
def sEvolveAfter : GameState :=
  { sEvolve with psA := { sEvolve.psA with hand := [], active := [evoV1After] } }

/-- Every card in play or in any zone of either player, used to state that a
card has vanished from the game. -/
def allCards (s : GameState) : List CardInstance :=
  s.psA.deck ++ s.psA.hand ++ s.psA.active ++ s.psA.bench ++ s.psA.discard ++
  s.psA.lost_zone ++ s.psA.prize ++ s.psA.stadium ++
  s.psB.deck ++ s.psB.hand ++ s.psB.active ++ s.psB.bench ++ s.psB.discard ++
  s.psB.lost_zone ++ s.psB.prize ++ s.psB.stadium

end Fixtures

/-- C1: the compiler does not order "before doing damage" steps ahead of the
damage-resolution step.  For the attack input whose printed damage yields the
damage step and whose text compiles to the single `before_damage`-flagged
step (e.g. "Before doing damage, switch …"), the assembled plan is
`[damage, before_damage_switch]`: the step compiled from the clause sits
strictly AFTER the damage step, because `_analyze_effect_text` merges the
new steps with `extend` (append at the tail) in both branches, despite its
own comments saying the `before_damage` steps are inserted ahead of the
damage step. -/
theorem before_damage_step_misordered :
    analyzeAttackSteps true [beforeDamageStepOf "switch"] =
        [damageStep, beforeDamageStepOf "switch"] ∧
    ¬ ((analyzeAttackSteps true [beforeDamageStepOf "switch"]).indexOf
          (beforeDamageStepOf "switch") <
        (analyzeAttackSteps true [beforeDamageStepOf "switch"]).indexOf damageStep) := by
  decide

/-- C3 (divergence at the failing input): evolving the damaged, energised,
poisoned base `b1` with the in-hand evolution `v1` transfers damage, energy
and conditions onto the evolution card and replaces the base in the active
zone, but the base card is NOT discarded: the owner's discard pile stays
empty and `b1` is left in no zone of either player. -/
theorem evolve_pokemon_base_not_discarded :
    evolvePokemon sEvolve "A" "b1" "v1" = Except.ok sEvolveAfter ∧
    evoV1After.damage = baseB1.damage ∧
    evoV1After.attached_energy = baseB1.attached_energy ∧
    evoV1After.special_conditions = baseB1.special_conditions ∧
    sEvolveAfter.psA.discard = [] ∧
    (allCards sEvolveAfter).all (fun c => c.uid ≠ "b1") = true := by
  decide

/-- C2 (counterexample): a `switch_pokemon` request whose bench uid does not
exist fails — the raised `ValueError` surfaces as a failed result — yet the
state after the call differs from the state before it: the retreat cost was
already paid (the active Pokémon lost its attached energy) and the retreat
usage was already recorded. -/
theorem failed_switch_request_mutates_state :
    (handleSwitchPokemon sSwitch "A" "ghost" false).2 = some "Bench card ghost not found" ∧
    (handleSwitchPokemon sSwitch "A" "ghost" false).1 ≠ sSwitch := by
  decide

/-- C7 (counterexample): `modify_prize_delta` with a positive delta increases
`prizes_remaining` — from the starting 6 to 7 here — so the engine does
expose an operation that increases a player's prize count. -/
theorem modify_prize_delta_can_increase :
    ((modifyPrizeDelta sPrize "A" 1).1.player "A").prizes_remaining >
      (sPrize.player "A").prizes_remaining := by
  decide

/-- Reading back the player just written. -/
theorem player_setPlayer_self (s : GameState) (pid : String) (ps : PlayerState) :
    (s.setPlayer pid ps).player pid = ps := by
  unfold GameState.setPlayer GameState.player
  by_cases h : pid = s.pidA <;> simp [h]

/-- Writing one player leaves the other player's entry alone (for the
two-player dict, i.e. whenever one of the two ids involved is the first
player's). -/
theorem player_setPlayer_other (s : GameState) (pid q : String) (ps : PlayerState)
    (hne : pid ≠ q) (h : pid = s.pidA ∨ q = s.pidA) :
    (s.setPlayer pid ps).player q = s.player q := by
  unfold GameState.setPlayer GameState.player
  by_cases hA : pid = s.pidA
  · have hq : ¬ q = s.pidA := fun hq => hne (by rw [hA, hq])
    simp [hA, hq]
  · have hq : q = s.pidA := h.resolve_left hA
    simp [hA, hq]

@[simp] theorem setPlayer_pidA (s : GameState) (pid : String) (ps : PlayerState) :
    (s.setPlayer pid ps).pidA = s.pidA := by
  unfold GameState.setPlayer; split <;> rfl

@[simp] theorem setPlayer_pidB (s : GameState) (pid : String) (ps : PlayerState) :
    (s.setPlayer pid ps).pidB = s.pidB := by
  unfold GameState.setPlayer; split <;> rfl

@[simp] theorem setPlayer_turn_player (s : GameState) (pid : String) (ps : PlayerState) :
    (s.setPlayer pid ps).turn_player = s.turn_player := by
  unfold GameState.setPlayer; split <;> rfl

@[simp] theorem opponentOf_setPlayer (s : GameState) (pid q : String) (ps : PlayerState) :
    (s.setPlayer pid ps).opponentOf q = s.opponentOf q := by
  unfold GameState.opponentOf; simp

/-- Writing a player whose usage trackers are unchanged preserves every
player's usage trackers. -/
theorem trackers_setPlayer (s : GameState) (pid q : String) (ps : PlayerState)
    (hps : ps.usage_trackers = (s.player pid).usage_trackers) :
    ((s.setPlayer pid ps).player q).usage_trackers = ((s.player q)).usage_trackers := by
  unfold GameState.setPlayer GameState.player at *
  by_cases hA : pid = s.pidA <;> by_cases hq : q = s.pidA <;>
    simp [hA, hq] at hps ⊢ <;> simp_all

@[simp] theorem updateFoundPokemon_turn_player (s : GameState) (uid : String)
    (f : CardInstance → CardInstance) :
    (updateFoundPokemon s uid f).turn_player = s.turn_player := by
  unfold updateFoundPokemon; split_ifs <;> rfl

theorem updateFoundPokemon_trackers (s : GameState) (uid : String)
    (f : CardInstance → CardInstance) (q : String) :
    ((updateFoundPokemon s uid f).player q).usage_trackers = ((s.player q)).usage_trackers := by
  unfold updateFoundPokemon GameState.player
  split_ifs <;> by_cases hq : q = s.pidA <;> simp [hq]

/-- A usage counter reads back one higher after the increment that tracks it. -/
theorem getUsage_incUsage (t : List ((String × String) × Int)) (ent key : String) :
    getUsage (incUsage t (ent, key)) ent key = getUsage t ent key + 1 := by
  induction t with
  | nil => simp [incUsage, getUsage, List.lookup]
  | cons hd tl ih =>
    obtain ⟨k', v⟩ := hd
    by_cases hk : k' = (ent, key)
    · simp [incUsage, getUsage, List.lookup, hk]
    · simp only [incUsage, hk, if_false]
      simp only [getUsage, List.lookup] at ih ⊢
      have hbeq : ((ent, key) == k') = false :=
        beq_eq_false_iff_ne.mpr (fun he => hk he.symm)
      simp [hbeq, ih]

/-- The owner returned by the shared Pokémon search is one of the two
players. -/
theorem findPokemonWithOwner_owner (s : GameState) (uid owner : String) (c : CardInstance)
    (h : findPokemonWithOwner s uid = some (owner, c)) :
    owner = s.pidA ∨ owner = s.pidB := by
  unfold findPokemonWithOwner at h
  split at h
  · simp only [Option.some.injEq, Prod.mk.injEq] at h
    exact Or.inl h.1.symm
  · split at h
    · simp only [Option.some.injEq, Prod.mk.injEq] at h
      exact Or.inl h.1.symm
    · split at h
      · simp only [Option.some.injEq, Prod.mk.injEq] at h
        exact Or.inr h.1.symm
      · split at h
        · simp only [Option.some.injEq, Prod.mk.injEq] at h
          exact Or.inr h.1.symm
        · exact absurd h (by simp)

/-- A non-empty list yields exactly one card when one is taken off the top. -/
theorem length_take_one_of_ne_nil (l : List CardInstance) (h : l ≠ []) :
    (l.take 1).length = 1 := by
  cases l with
  | nil => exact absurd rfl h
  | cons a t => simp

/-- The first failing rule in the validation loop surfaces as the loop's
result. -/
theorem runValidations_some_of_mem (s : GameState) (ctx : EffectContext)
    (rules : List ValidationRule)
    (hfail : ∃ v ∈ rules, checkValidation s ctx v ≠ none) :
    ∃ v ∈ rules, ∃ m, checkValidation s ctx v = some m ∧
      runValidations s ctx rules = some m := by
  induction rules with
  | nil => simp at hfail
  | cons v rest ih =>
    cases hv : checkValidation s ctx v with
    | some m =>
      exact ⟨v, by simp, m, hv, by simp [runValidations, hv]⟩
    | none =>
      obtain ⟨v', hv', hne⟩ := hfail
      rcases List.mem_cons.mp hv' with rfl | hmem
      · exact absurd hv hne
      · obtain ⟨w, hw, m, hm, hrun⟩ := ih ⟨v', hmem, hne⟩
        exact ⟨w, List.mem_cons_of_mem _ hw, m, hm, by simp [runValidations, hv, hrun]⟩

/-- A turn check passes without touching the state when the requester is
already the turn player. -/
theorem ensureTurn_of_some (s : GameState) (actor : String)
    (h : s.turn_player = some actor) :
    ensureTurn s actor = (s, none) := by
  simp [ensureTurn, h]

/-- Inversion of a passed turn check: the resulting state has the requester
as turn player, and its player entries and ids agree with the input's. -/
theorem ensureTurn_none_inv (s s0 : GameState) (actor : String)
    (h : ensureTurn s actor = (s0, none)) :
    s0.turn_player = some actor ∧ (∀ q, s0.player q = s.player q) ∧
    s0.pidA = s.pidA ∧ s0.pidB = s.pidB := by
  unfold ensureTurn at h
  cases htp : s.turn_player with
  | none =>
    simp only [htp] at h
    split at h
    · simp at h
    · rename_i hcond
      cases h
      simp only [ne_eq, not_not] at hcond
      exact ⟨hcond, fun q => rfl, rfl, rfl⟩
  | some t =>
    simp only [htp] at h
    split at h
    · simp at h
    · rename_i hcond
      cases h
      simp only [ne_eq, not_not] at hcond
      exact ⟨htp.trans hcond, fun q => rfl, rfl, rfl⟩

/-- A successful energy attachment changes no turn field and no usage
tracker (it only moves the energy card out of a hand and extends the
target's attached-energy list). -/
theorem attachEnergy_ok_preserves (s s' : GameState) (e p : String)
    (h : attachEnergy s e p = Except.ok s') :
    s'.turn_player = s.turn_player ∧
    ∀ q, ((s'.player q)).usage_trackers = ((s.player q)).usage_trackers := by
  unfold attachEnergy at h
  split at h
  · simp at h
  · split at h
    · dsimp only at h
      split at h <;> simp at h
    · dsimp only at h
      split at h
      · simp at h
      · simp only [Except.ok.injEq] at h
        subst h
        constructor
        · rw [updateFoundPokemon_turn_player, setPlayer_turn_player]
        · intro q
          rw [updateFoundPokemon_trackers, trackers_setPlayer]
          rfl

/-- C4: after a successful `attach_energy` request, a second `attach_energy`
request by the same player in the same turn fails with the once-per-turn
message, and the state after the failed call is exactly the state after the
first call.  The counter hypothesis (`0 ≤ …`) says the usage counter was
non-negative to begin with, which holds in every reachable state. -/
theorem attach_energy_second_call_fails (s s1 : GameState) (actor e p e2 p2 : String)
    (h0 : 0 ≤ getUsage ((s.player actor)).usage_trackers "energy_attachment" "turn:attach_energy")
    (h1 : handleAttachEnergy s actor e p = (s1, none))
    (he2 : e2 ≠ "") (hp2 : p2 ≠ "") :
    handleAttachEnergy s1 actor e2 p2 =
      (s1, some "You can only attach one Energy card per turn") := by
  unfold handleAttachEnergy at h1
  cases hET : ensureTurn s actor with
  | mk sE err =>
    rw [hET] at h1
    cases err with
    | some msg => simp at h1
    | none =>
      obtain ⟨hturnE, hplayE, -, -⟩ := ensureTurn_none_inv s sE actor hET
      by_cases he : e = ""
      · simp [he] at h1
      by_cases hp : p = ""
      · simp [he, hp] at h1
      by_cases husage :
          getUsage ((sE.player actor)).usage_trackers "energy_attachment" "turn:attach_energy" > 0
      · simp [he, hp, husage] at h1
      cases hAE : attachEnergy sE e p with
      | error msg => simp [he, hp, husage, hAE] at h1
      | ok sA =>
        simp only [if_neg he, if_neg hp, if_neg husage, hAE] at h1
        have hs1 : s1 = trackUsage sA actor "energy_attachment" "turn:attach_energy" :=
          (congrArg Prod.fst h1).symm
        obtain ⟨hApre, hAtrk⟩ := attachEnergy_ok_preserves sE sA e p hAE
        have hs1turn : s1.turn_player = some actor := by
          rw [hs1]
          unfold trackUsage
          rw [setPlayer_turn_player, hApre, hturnE]
        have husage0 :
            getUsage ((sE.player actor)).usage_trackers "energy_attachment" "turn:attach_energy" = 0 := by
          rw [hplayE actor]
          rw [hplayE actor] at husage
          omega
        have husage1 :
            getUsage ((s1.player actor)).usage_trackers "energy_attachment" "turn:attach_energy" = 1 := by
          rw [hs1]
          unfold trackUsage
          rw [player_setPlayer_self]
          simp only
          rw [getUsage_incUsage, hAtrk actor, husage0]
          decide
        unfold handleAttachEnergy
        rw [ensureTurn_of_some s1 actor hs1turn]
        simp [he2, hp2, husage1]

/-- Witness for C4: a concrete first attachment succeeds, and the immediate
second attachment by the same player fails with the once-per-turn message
while leaving the state exactly as after the first call. -/
theorem attach_energy_second_call_fails_witness :
    (0 ≤ getUsage ((sAttach.player "A")).usage_trackers "energy_attachment" "turn:attach_energy" ∧
      handleAttachEnergy sAttach "A" "e1" "p1" = (sAttach1, none) ∧
      ("e2" : String) ≠ "" ∧ ("p1" : String) ≠ "") ∧
    handleAttachEnergy sAttach1 "A" "e2" "p1" =
      (sAttach1, some "You can only attach one Energy card per turn") :=
  ⟨⟨by decide, by decide, by decide, by decide⟩,
    attach_energy_second_call_fails sAttach sAttach1 "A" "e1" "p1" "e2" "p1"
      (by decide) (by decide) (by decide) (by decide)⟩

/-- C2 (amended): the failure paths of `_handle_switch_pokemon` that raise
before the handler pays the retreat cost (missing parameter, once-per-turn
retreat limit, no active Pokémon, blocking special condition, insufficient
energy) all leave the GameState exactly as it was; the counterexample shows
the bench-card-not-found failure, raised after the cost is paid, does not. -/
theorem switch_precheck_failures_leave_state (s : GameState) (actor bid : String)
    (opp : Bool) (ap : CardInstance) (rest : List CardInstance)
    (hturn : s.turn_player = some actor) :
    (bid = "" → handleSwitchPokemon s actor bid opp =
      (s, some "switch_pokemon requires 'bench_card_id' parameter. Provide the UID of the Pokémon in bench to switch with.")) ∧
    (bid ≠ "" →
      getUsage ((s.player actor)).usage_trackers "retreat" "turn:switch_pokemon" > 0 →
      handleSwitchPokemon s actor bid opp = (s, some "You can only retreat once per turn")) ∧
    (bid ≠ "" →
      ¬ getUsage ((s.player actor)).usage_trackers "retreat" "turn:switch_pokemon" > 0 →
      (s.player actor).active = [] →
      handleSwitchPokemon s actor bid opp = (s, some "No active Pokémon to retreat")) ∧
    (bid ≠ "" →
      ¬ getUsage ((s.player actor)).usage_trackers "retreat" "turn:switch_pokemon" > 0 →
      (s.player actor).active = ap :: rest →
      ("Asleep" ∈ ap.special_conditions ∨ "Paralyzed" ∈ ap.special_conditions) →
      handleSwitchPokemon s actor bid opp =
        (s, some "Pokémon that are Asleep or Paralyzed cannot retreat")) ∧
    (bid ≠ "" →
      ¬ getUsage ((s.player actor)).usage_trackers "retreat" "turn:switch_pokemon" > 0 →
      (s.player actor).active = ap :: rest →
      ¬ ("Asleep" ∈ ap.special_conditions ∨ "Paralyzed" ∈ ap.special_conditions) →
      ap.attached_energy.length < getRetreatCost ap →
      handleSwitchPokemon s actor bid opp =
        (s, some ("Not enough energy attached. Retreat cost is " ++ toString (getRetreatCost ap)
          ++ ", but only " ++ toString ap.attached_energy.length ++ " energy attached"))) := by
  have hET := ensureTurn_of_some s actor hturn
  refine ⟨?_, ?_, ?_, ?_, ?_⟩
  · intro hbid
    simp [handleSwitchPokemon, hET, hbid]
  · intro hbid husage
    simp [handleSwitchPokemon, hET, hbid, husage]
  · intro hbid husage hact
    simp [handleSwitchPokemon, hET, hbid, husage, hact]
  · intro hbid husage hact hcond
    simp [handleSwitchPokemon, hET, hbid, husage, hact, hcond]
  · intro hbid husage hact hcond hlen
    simp [handleSwitchPokemon, hET, hbid, husage, hact, hcond, hlen]

/-- Witness for C2's amended theorem: on the concrete switch scenario the
once-per-turn retreat limit is not yet hit, there is an active Pokémon with
one energy, and the insufficient-energy conjunct does not fire — the
missing-parameter failure leaves the state untouched. -/
theorem switch_precheck_failures_leave_state_witness :
    (sSwitch.turn_player = some "A") ∧
    handleSwitchPokemon sSwitch "A" "" false =
      (sSwitch, some "switch_pokemon requires 'bench_card_id' parameter. Provide the UID of the Pokémon in bench to switch with.") :=
  ⟨by decide,
    (switch_precheck_failures_leave_state sSwitch "A" "" false
      { uid := "p1", owner_id := "A", definition := defPikachu, attached_energy := ["e1"] } []
      (by decide)).1 rfl⟩

/-- C6: `execute_with_plan` evaluates the validation rules before any
execution step; when any rule fails, the call returns a failed result
carrying the failing rule's message, with the GameState exactly as it was
passed in (no execution step has run). -/
theorem execute_with_plan_validation_gate (s : GameState) (ctx : EffectContext)
    (plan : ExecPlanI)
    (hfail : ∃ v ∈ plan.validation_rules, checkValidation s ctx v ≠ none) :
    ∃ v ∈ plan.validation_rules, ∃ m, checkValidation s ctx v = some m ∧
      executeWithPlan s ctx plan = (s, { success := false, message := m }) := by
  obtain ⟨v, hmem, m, hm, hrun⟩ :=
    runValidations_some_of_mem s ctx plan.validation_rules hfail
  exact ⟨v, hmem, m, hm, by simp [executeWithPlan, hrun]⟩

/-- Witness for C6: a concrete plan whose `in_active` rule fails ahead of a
deck-mutating draw step; the call fails with that rule's message and the
state is returned untouched. -/
theorem execute_with_plan_validation_gate_witness :
    (∃ v ∈ planW.validation_rules, checkValidation sPlan ctxPlan v ≠ none) ∧
    (∃ v ∈ planW.validation_rules, ∃ m, checkValidation sPlan ctxPlan v = some m ∧
      executeWithPlan sPlan ctxPlan planW = (sPlan, { success := false, message := m })) :=
  ⟨by decide, execute_with_plan_validation_gate sPlan ctxPlan planW (by decide)⟩

/-- C7 (amended): a fresh player starts at 6 prizes; `take_prize` never
increases `prizes_remaining`, and `modify_prize_delta` never increases it
when the delta is non-positive and the current count is non-negative (a
positive delta, by contrast, increases it — see the counterexample). -/
theorem prizes_monotone_amended (s : GameState) (pid : String) (count : Nat) (delta : Int)
    (h0 : 0 ≤ (s.player pid).prizes_remaining) (hd : delta ≤ 0) :
    (mkPlayerState pid).prizes_remaining = 6 ∧
    ((takePrize s pid count).1.player pid).prizes_remaining ≤
      (s.player pid).prizes_remaining ∧
    ((modifyPrizeDelta s pid delta).1.player pid).prizes_remaining ≤
      (s.player pid).prizes_remaining := by
  refine ⟨rfl, ?_, ?_⟩
  · simp only [takePrize, player_setPlayer_self]
    have : (0 : Int) ≤ ((s.player pid).prize.take count).length := by positivity
    omega
  · simp only [modifyPrizeDelta, player_setPlayer_self]
    omega

/-- Witness for C7's amended theorem at a concrete state. -/
theorem prizes_monotone_amended_witness :
    (0 ≤ (sPrize.player "A").prizes_remaining ∧ (-1 : Int) ≤ 0) ∧
    ((mkPlayerState "A").prizes_remaining = 6 ∧
      ((takePrize sPrize "A" 1).1.player "A").prizes_remaining ≤
        (sPrize.player "A").prizes_remaining ∧
      ((modifyPrizeDelta sPrize "A" (-1)).1.player "A").prizes_remaining ≤
        (sPrize.player "A").prizes_remaining) :=
  ⟨⟨by decide, by decide⟩, prizes_monotone_amended sPrize "A" 1 (-1) (by decide) (by decide)⟩

/-- C8: Deck.validate succeeds exactly on decks of 60 cards with
pairwise-distinct uids (and, being read-only, leaves the deck unchanged);
it raises on every other deck. -/
theorem deck_validate_ok_iff (player_id : String) (cards : List CardInstance) :
    deckValidate player_id cards = Except.ok () ↔
      (cards.length = 60 ∧ (cards.map CardInstance.uid).Nodup) := by
  unfold deckValidate
  constructor
  · intro h
    by_cases h60 : cards.length = 60
    · refine ⟨h60, ?_⟩
      by_cases hdup : (cards.map CardInstance.uid).dedup.length = 60
      · have hmaplen : (cards.map CardInstance.uid).length = 60 := by
          simpa using h60
        have hsub : List.Sublist (cards.map CardInstance.uid).dedup (cards.map CardInstance.uid) :=
          List.dedup_sublist _
        have heq : (cards.map CardInstance.uid).dedup = cards.map CardInstance.uid :=
          hsub.eq_of_length (by rw [hdup, hmaplen])
        have := List.nodup_dedup (cards.map CardInstance.uid)
        rwa [heq] at this
      · simp [h60, hdup] at h
    · simp [h60] at h
  · rintro ⟨h60, hnodup⟩
    have hmaplen : (cards.map CardInstance.uid).length = 60 := by simpa using h60
    have heq : (cards.map CardInstance.uid).dedup = cards.map CardInstance.uid :=
      List.dedup_eq_self.mpr hnodup
    have hdup : (cards.map CardInstance.uid).dedup.length = 60 := by rw [heq, hmaplen]
    simp [h60, hdup]

/-- C10: drawing is total in the count: for every `count`, even one larger
than the deck, `draw` returns exactly the top `min count deckSize` cards in
deck order, removes exactly those from the deck, and appends them to the
hand.  Totality (the claim's "never raises") is the fact that `draw` is a
total function of `count`. -/
theorem draw_total_spec (s : GameState) (pid : String) (count : Nat) :
    (draw s pid count).2 = (s.player pid).deck.take count ∧
    (draw s pid count).2.length = min count (s.player pid).deck.length ∧
    ((draw s pid count).1.player pid).deck = (s.player pid).deck.drop count ∧
    ((draw s pid count).1.player pid).hand = (s.player pid).hand ++ (s.player pid).deck.take count := by
  refine ⟨rfl, by simp [draw], ?_, ?_⟩ <;>
    simp [draw, player_setPlayer_self]

/-- The two ids `owner` and its opponent are distinct and cover the first
player id, in the two directions the read-back lemmas need. -/
theorem opponent_facts (s : GameState) (owner : String)
    (hAB : s.pidA ≠ s.pidB) (howner : owner = s.pidA ∨ owner = s.pidB) :
    owner ≠ s.opponentOf owner ∧
    (s.opponentOf owner = s.pidA ∨ owner = s.pidA) ∧
    (owner = s.pidA ∨ s.opponentOf owner = s.pidA) := by
  rcases howner with h | h
  · have hopp : s.opponentOf owner = s.pidB := by
      unfold GameState.opponentOf; rw [if_pos h]
    exact ⟨by rw [hopp, h]; exact hAB, Or.inr h, Or.inl h⟩
  · have hOA : ¬ owner = s.pidA := fun hc => hAB (hc ▸ h ▸ rfl)
    have hopp : s.opponentOf owner = s.pidA := by
      unfold GameState.opponentOf; rw [if_neg hOA]
    exact ⟨by rw [hopp, h]; exact fun hc => hAB hc.symm, Or.inl hopp, Or.inr hopp⟩

/-- A prize draw does not rename the players. -/
theorem takePrize_pidA (s : GameState) (pid : String) (count : Nat) :
    (takePrize s pid count).1.pidA = s.pidA := by
  unfold takePrize
  rw [setPlayer_pidA]

/-- What one prize draw does to the prize taker's entry. -/
theorem takePrize_player_self (s : GameState) (pid : String) (count : Nat) :
    ((takePrize s pid count).1.player pid) =
      { s.player pid with
        prize := (s.player pid).prize.drop count
        hand := (s.player pid).hand ++ (s.player pid).prize.take count
        prizes_remaining :=
          (s.player pid).prizes_remaining - ((s.player pid).prize.take count).length } := by
  unfold takePrize
  exact player_setPlayer_self ..

/-- A prize draw never touches the other player's entry. -/
theorem takePrize_player_other (s : GameState) (pid q : String) (count : Nat)
    (hne : pid ≠ q) (h : pid = s.pidA ∨ q = s.pidA) :
    ((takePrize s pid count).1.player q) = s.player q := by
  unfold takePrize
  exact player_setPlayer_other s pid q _ hne h

/-- C5: when `update_damage` pushes a Pokémon in its owner's active spot to
at least its HP, `check_ko` on it returns `true`, performs exactly one prize
draw for the opponent of the knocked-out card's owner (their
`prizes_remaining` drops by exactly 1 and exactly one prize card joins their
hand), and moves the knocked-out card from the active zone to its owner's
discard pile.  The prize hypotheses say the opponent still has a prize to
take, which holds in any live game. -/
theorem update_damage_active_knockout (s s1 : GameState) (uid : String) (delta : Int)
    (owner : String) (c : CardInstance)
    (hAB : s1.pidA ≠ s1.pidB)
    (hupd : updateDamage s uid delta = Except.ok s1)
    (hfind : findPokemonWithOwner s1 uid = some (owner, c))
    (hko : c.isKo = true)
    (hact : c ∈ (s1.player owner).active)
    (hprz : 0 < ((s1.player (s1.opponentOf owner))).prizes_remaining)
    (hpnz : ((s1.player (s1.opponentOf owner))).prize ≠ []) :
    ∃ S, checkKo s1 uid = Except.ok (S, true) ∧
      ((S.player (s1.opponentOf owner))).prizes_remaining =
        ((s1.player (s1.opponentOf owner))).prizes_remaining - 1 ∧
      ((S.player (s1.opponentOf owner))).hand =
        ((s1.player (s1.opponentOf owner))).hand ++
          ((s1.player (s1.opponentOf owner))).prize.take 1 ∧
      (((s1.player (s1.opponentOf owner))).prize.take 1).length = 1 ∧
      ((S.player owner)).active = removeFirst ((s1.player owner)).active c ∧
      ((S.player owner)).discard = ((s1.player owner)).discard ++ [c] := by
  obtain ⟨hne, hd1, hd2⟩ :=
    opponent_facts s1 owner hAB (findPokemonWithOwner_owner s1 uid owner c hfind)
  have hlen := length_take_one_of_ne_nil _ hpnz
  have hPowner :
      ((takePrize s1 (s1.opponentOf owner) 1).1.player owner) = s1.player owner :=
    takePrize_player_other s1 (s1.opponentOf owner) owner 1 (Ne.symm hne) hd1
  have hck : checkKo s1 uid =
      Except.ok (koMove (takePrize s1 (s1.opponentOf owner) 1).1 owner c, true) := by
    unfold checkKo
    simp only [hfind, hko, if_true, if_pos hprz]
  have hmem : c ∈ ((takePrize s1 (s1.opponentOf owner) 1).1.player owner).active := by
    rw [hPowner]; exact hact
  have hkm : koMove (takePrize s1 (s1.opponentOf owner) 1).1 owner c =
      (takePrize s1 (s1.opponentOf owner) 1).1.setPlayer owner
        { ((takePrize s1 (s1.opponentOf owner) 1).1.player owner) with
          active := removeFirst ((takePrize s1 (s1.opponentOf owner) 1).1.player owner).active c
          discard := ((takePrize s1 (s1.opponentOf owner) 1).1.player owner).discard ++ [c] } := by
    unfold koMove
    rw [if_pos hmem]
  refine ⟨_, hck, ?_, ?_, hlen, ?_, ?_⟩
  · rw [hkm, player_setPlayer_other _ owner (s1.opponentOf owner) _ hne
      (by rw [takePrize_pidA]; exact hd2)]
    rw [takePrize_player_self]
    simp [hlen]
  · rw [hkm, player_setPlayer_other _ owner (s1.opponentOf owner) _ hne
      (by rw [takePrize_pidA]; exact hd2)]
    rw [takePrize_player_self]
  · rw [hkm, player_setPlayer_self, hPowner]
  · rw [hkm, player_setPlayer_self, hPowner]

/-- Witness for C5 on the concrete active-spot knockout: the damage update
takes the active Pikachu to its HP, `check_ko` reports the knockout, B's
prize count drops from 6 to 5 with one prize card drawn into B's hand, and
the Pikachu moves from A's active spot to A's discard pile. -/
theorem update_damage_active_knockout_witness :
    (sKo1.pidA ≠ sKo1.pidB ∧
      updateDamage sKo "p1" 30 = Except.ok sKo1 ∧
      findPokemonWithOwner sKo1 "p1" = some ("A", cKo) ∧
      cKo.isKo = true ∧
      cKo ∈ (sKo1.player "A").active ∧
      0 < ((sKo1.player (sKo1.opponentOf "A"))).prizes_remaining ∧
      ((sKo1.player (sKo1.opponentOf "A"))).prize ≠ []) ∧
    (∃ S, checkKo sKo1 "p1" = Except.ok (S, true) ∧
      ((S.player (sKo1.opponentOf "A"))).prizes_remaining =
        ((sKo1.player (sKo1.opponentOf "A"))).prizes_remaining - 1 ∧
      ((S.player (sKo1.opponentOf "A"))).hand =
        ((sKo1.player (sKo1.opponentOf "A"))).hand ++
          ((sKo1.player (sKo1.opponentOf "A"))).prize.take 1 ∧
      (((sKo1.player (sKo1.opponentOf "A"))).prize.take 1).length = 1 ∧
      ((S.player "A")).active = removeFirst ((sKo1.player "A")).active cKo ∧
      ((S.player "A")).discard = ((sKo1.player "A")).discard ++ [cKo]) :=
  ⟨⟨by decide, by decide, by decide, by decide, by decide, by decide, by decide⟩,
    update_damage_active_knockout sKo sKo1 "p1" 30 "A" cKo
      (by decide) (by decide) (by decide) (by decide) (by decide) (by decide) (by decide)⟩

/-- C9: a knocked-out Pokémon sitting on its owner's bench (not in the
active spot) still makes `check_ko` return `true` and still hands the
opponent one prize, but the card is NOT moved to the discard pile: the
owner's bench, active and discard zones are all left as they were.  Only an
active-spot Pokémon is moved to discard. -/
theorem check_ko_bench_not_discarded (s : GameState) (uid owner : String) (c : CardInstance)
    (hAB : s.pidA ≠ s.pidB)
    (hfind : findPokemonWithOwner s uid = some (owner, c))
    (hko : c.isKo = true)
    (hbench : c ∈ (s.player owner).bench)
    (hnotact : c ∉ (s.player owner).active)
    (hprz : 0 < ((s.player (s.opponentOf owner))).prizes_remaining)
    (hpnz : ((s.player (s.opponentOf owner))).prize ≠ []) :
    ∃ S, checkKo s uid = Except.ok (S, true) ∧
      ((S.player (s.opponentOf owner))).prizes_remaining =
        ((s.player (s.opponentOf owner))).prizes_remaining - 1 ∧
      ((S.player (s.opponentOf owner))).hand =
        ((s.player (s.opponentOf owner))).hand ++
          ((s.player (s.opponentOf owner))).prize.take 1 ∧
      ((S.player owner)).bench = ((s.player owner)).bench ∧
      ((S.player owner)).active = ((s.player owner)).active ∧
      ((S.player owner)).discard = ((s.player owner)).discard := by
  obtain ⟨hne, hd1, hd2⟩ :=
    opponent_facts s owner hAB (findPokemonWithOwner_owner s uid owner c hfind)
  have hlen := length_take_one_of_ne_nil _ hpnz
  have hPowner :
      ((takePrize s (s.opponentOf owner) 1).1.player owner) = s.player owner :=
    takePrize_player_other s (s.opponentOf owner) owner 1 (Ne.symm hne) hd1
  have hck : checkKo s uid =
      Except.ok (koMove (takePrize s (s.opponentOf owner) 1).1 owner c, true) := by
    unfold checkKo
    simp only [hfind, hko, if_true, if_pos hprz]
  have hmem : c ∉ ((takePrize s (s.opponentOf owner) 1).1.player owner).active := by
    rw [hPowner]; exact hnotact
  have hkm : koMove (takePrize s (s.opponentOf owner) 1).1 owner c =
      (takePrize s (s.opponentOf owner) 1).1 := by
    unfold koMove
    rw [if_neg hmem]
  refine ⟨_, hck, ?_, ?_, ?_, ?_, ?_⟩
  · rw [hkm, takePrize_player_self]
    simp [hlen]
  · rw [hkm, takePrize_player_self]
  · rw [hkm, hPowner]
  · rw [hkm, hPowner]
  · rw [hkm, hPowner]

/-- Witness for C9 on the concrete bench knockout: `check_ko` reports the
knockout and B draws one prize, but the knocked-out Pikachu stays on A's
bench and A's discard pile stays empty. -/
theorem check_ko_bench_not_discarded_witness :
    (sKoBench.pidA ≠ sKoBench.pidB ∧
      findPokemonWithOwner sKoBench "p1" = some ("A", cKo) ∧
      cKo.isKo = true ∧
      cKo ∈ (sKoBench.player "A").bench ∧
      cKo ∉ (sKoBench.player "A").active ∧
      0 < ((sKoBench.player (sKoBench.opponentOf "A"))).prizes_remaining ∧
      ((sKoBench.player (sKoBench.opponentOf "A"))).prize ≠ []) ∧
    (∃ S, checkKo sKoBench "p1" = Except.ok (S, true) ∧
      ((S.player (sKoBench.opponentOf "A"))).prizes_remaining =
        ((sKoBench.player (sKoBench.opponentOf "A"))).prizes_remaining - 1 ∧
      ((S.player (sKoBench.opponentOf "A"))).hand =
        ((sKoBench.player (sKoBench.opponentOf "A"))).hand ++
          ((sKoBench.player (sKoBench.opponentOf "A"))).prize.take 1 ∧
      ((S.player "A")).bench = ((sKoBench.player "A")).bench ∧
      ((S.player "A")).active = ((sKoBench.player "A")).active ∧
      ((S.player "A")).discard = ((sKoBench.player "A")).discard) :=
  ⟨⟨by decide, by decide, by decide, by decide, by decide, by decide, by decide⟩,
    check_ko_bench_not_discarded sKoBench "p1" "A" cKo
      (by decide) (by decide) (by decide) (by decide) (by decide) (by decide) (by decide)⟩

end PtcgAI
